import Mathlib

/-!
Shallow embedding of `packages/reg-notify-github-plugin/src/github-notifier-plugin.ts`
(the GitHub notifier plugin of reg-suit).

The plugin's externally visible behaviour is modelled as a pure function:
remote calls (Octokit `createCommitStatus`, `pulls.list`, `issues.createComment`),
logger output and the spinner are recorded in an effect trace, and the outcomes
the remote service would deliver for each call are supplied up-front in a
`NotifyEnv` record.  A rejected promise is an `Except.error` result carrying the
rethrown value, exactly as produced by the source's `errorHandler`.
-/

namespace GithubNotifier

/-- Log levels of the `PluginLogger` collaborator (`info`/`warn`/`error`/`verbose`). -/
inductive LogLevel where
  | info
  | warn
  | error
  | verbose
  deriving DecidableEq, Repr

/-- The structured GitHub-app error shape of the source (lines 24-30):
`{ name: "StatusCodeError", statusCode, error: { message } }`.
`errMessage` models the nested `error.message` field. -/
structure GhAppStatusCodeError where
  statusCode : Nat
  errMessage : String
  deriving DecidableEq, Repr

/-- A rejection reason coming out of a remote call.  `isGhAppError` (line 32-34)
distinguishes the structured shape (`name === "StatusCodeError"`) from every
other thrown value, which we keep uninterpreted under a tag. -/
inductive RemoteReason where
  | ghApp (e : GhAppStatusCodeError)
  | unknown (tag : String)
  deriving DecidableEq, Repr

/-- Predicate `isGhAppError` (source lines 32-34). -/
def isGhAppError : RemoteReason → Bool
  | RemoteReason.ghApp _ => true
  | RemoteReason.unknown _ => false

/-- The value a rejected `notify` promise carries: `errorHandler` rejects with
`reason.error` (the inner `{message}` object) for structured errors and with
the raw reason otherwise (source lines 36-45). -/
inductive Thrown where
  | innerError (message : String)
  | raw (reason : RemoteReason)
  deriving DecidableEq, Repr

/-- The `errorHandler` factory (source lines 36-45): for a structured GitHub-app error it
logs the nested message at error level and rejects with the inner error; any
other reason is rejected unchanged.  Returns the produced log entries (level
and message) together with the rethrown value. -/
def errorHandler (reason : RemoteReason) : List (LogLevel × String) × Thrown :=
  match reason with
  | RemoteReason.ghApp e => ([(LogLevel.error, e.errMessage)], Thrown.innerError e.errMessage)
  | r => ([], Thrown.raw r)

/-- A commit object of `tiny-commit-walker` exposing its `hash`. -/
structure CommitObj where
  hash : String
  deriving DecidableEq, Repr

/-- A branch object of `tiny-commit-walker`: a `name` and its tip `commit`. -/
structure BranchObj where
  name : String
  commit : CommitObj
  deriving DecidableEq, Repr

/-- The result of `this._repo.readHeadSync()` as the source consumes it:
a `type` tag (`"branch"` when HEAD is on a branch) plus optional `branch`
and `commit` fields, each checked for presence (lines 101-108 and 146). -/
structure Head where
  type : String
  branch : Option BranchObj
  commit : Option CommitObj
  deriving DecidableEq, Repr

/-- The comparison result consumed by `notify`: four item lists whose lengths
are the failed/new/deleted/passed counts (source lines 92-96). -/
structure ComparisonResult where
  failedItems : List String
  newItems : List String
  deletedItems : List String
  passedItems : List String
  deriving DecidableEq, Repr

/-- The `NotifyParams` record as consumed by the plugin: the comparison result plus an
optional report URL. -/
structure NotifyParams where
  comparisonResult : ComparisonResult
  reportUrl : Option String
  deriving DecidableEq, Repr

/-- The `BaseEventBody` fields the notifier reads: target `owner` and
`repository`. -/
structure BaseEventBody where
  owner : String
  repository : String
  deriving DecidableEq, Repr

/-- The plugin instance state established by `init` (source lines 71-88):
dry-run flag, target, and the notification policy fields. -/
structure PluginConfig where
  noEmit : Bool
  apiOpt : BaseEventBody
  prComment : Bool
  setCommitStatus : Bool
  behavior : String
  shortDescription : Bool
  regconfigId : String
  deriving DecidableEq, Repr

/-- An open pull request as returned by `octokit.rest.pulls.list`; only its
`number` is consumed (source lines 171-177). -/
structure PullRequest where
  number : Nat
  deriving DecidableEq, Repr

deriving instance DecidableEq for Except

/-- The outcome each remote endpoint would deliver if called during one
`notify` invocation.  The trace records which calls are actually issued. -/
structure NotifyEnv where
  createCommitStatusResult : Except RemoteReason Unit
  pullsListResult : Except RemoteReason (List PullRequest)
  createCommentResult : Except RemoteReason Unit
  deriving DecidableEq, Repr

/-- JavaScript truthiness of an optional string value (`undefined` and the
empty string are falsy), as used by `if (params.reportUrl)` and
`body.reportUrl ? ... : ""`. -/
def jsTruthy : Option String → Bool
  | none => false
  | some s => s != ""

/-- The `CommentToPrBody` record assembled at source lines 147-158. -/
structure CommentToPrBody where
  owner : String
  repository : String
  behavior : String
  branchName : String
  headOid : String
  failedItemsCount : Nat
  newItemsCount : Nat
  deletedItemsCount : Nat
  passedItemsCount : Nat
  shortDescription : Bool
  regconfigId : String
  reportUrl : Option String
  deriving DecidableEq, Repr

/-- Method `_createCommentBody` (source lines 208-217): the template literal, kept as
a flat concatenation.  Every continuation line of the template starts with four
spaces; the short-description slot and the report-URL slot are each preceded by
a newline and that four-space indent and render as `""` when their condition is
falsy. -/
def createCommentBody (body : CommentToPrBody) : String :=
  "Comparison result:\n    - Failed items: " ++ toString body.failedItemsCount ++
    "\n    - New items: " ++ toString body.newItemsCount ++
    "\n    - Deleted items: " ++ toString body.deletedItemsCount ++
    "\n    - Passed items: " ++ toString body.passedItemsCount ++
    "\n    " ++ (if body.shortDescription then " - Short descriptions enabled" else "") ++
    "\n    " ++ (match body.reportUrl with
                 | some u => if u != "" then " - [Report URL](" ++ u ++ ")" else ""
                 | none => "")

/-- Effects observable during `notify`: log lines, the three remote calls with
the arguments the source passes, and the spinner. -/
inductive Effect where
  | log (level : LogLevel) (message : String)
  | callCreateCommitStatus (owner repo sha state description context : String)
      (targetUrl : Option String)
  | callPullsList (owner repo headRef : String)
  | callCreateComment (owner repo : String) (issueNumber : Nat) (body : String)
  | spinnerStart
  | spinnerStop
  deriving DecidableEq, Repr

/-- Whether an effect is a call to the remote hosting service. -/
def Effect.isRemoteCall : Effect → Bool
  | Effect.callCreateCommitStatus _ _ _ _ _ _ _ => true
  | Effect.callPullsList _ _ _ => true
  | Effect.callCreateComment _ _ _ _ => true
  | _ => false

/-- Whether an effect is a remote call of the comment phase (pull-request
lookup or comment creation). -/
def Effect.isCommentPhaseRemote : Effect → Bool
  | Effect.callPullsList _ _ _ => true
  | Effect.callCreateComment _ _ _ _ => true
  | _ => false

/-- Derivation of `state` from the item counts (source line 97). -/
def deriveState (cr : ComparisonResult) : String :=
  if cr.failedItems.length + cr.newItems.length + cr.deletedItems.length == 0 then
    "success"
  else
    "failure"

/-- Derivation of `description` from `state` (source line 98). -/
def deriveDescription (cr : ComparisonResult) : String :=
  if deriveState cr == "success" then "Regression testing passed" else "Regression testing failed"

/-- Resolution of `sha1` from HEAD (source lines 101-108): the branch tip's
hash when `head.branch` is present, else the detached commit's hash, else
`none` (the unresolved case). -/
def headSha1 (head : Head) : Option String :=
  match head.branch with
  | some b => some b.commit.hash
  | none => Option.map CommitObj.hash head.commit

/-- The metadata object attached to `updateStatusBody` when `prComment` is
enabled (source lines 117-125). -/
structure StatusMetadata where
  failedItemsCount : Nat
  newItemsCount : Nat
  deletedItemsCount : Nat
  passedItemsCount : Nat
  shortDescription : Bool
  deriving DecidableEq, Repr

/-- The `UpdateStatusBody` record as assembled at source lines 110-125.  In this version
of the code the record is built but never sent anywhere: the later
`createCommitStatus` call passes its own arguments directly. -/
structure UpdateStatusBody where
  owner : String
  repository : String
  sha1 : String
  description : String
  state : String
  reportUrl : Option String
  metadata : Option StatusMetadata
  deriving DecidableEq, Repr

/-- Assembly of `updateStatusBody` (source lines 110-125): the report URL is
attached only when truthy, the metadata only when `prComment` is enabled. -/
def buildUpdateStatusBody (cfg : PluginConfig) (sha1 state description : String)
    (reportUrl : Option String) (counts : StatusMetadata) : UpdateStatusBody :=
  { owner := cfg.apiOpt.owner
    repository := cfg.apiOpt.repository
    sha1 := sha1
    description := description
    state := state
    reportUrl := if jsTruthy reportUrl then reportUrl else none
    metadata := if cfg.prComment then some counts else none }

/-- The commit-status phase (source lines 127-143).  When `setCommitStatus` is
enabled the remote call is issued; on success an info line is logged, on
failure `errorHandler` logs and the rethrown value propagates (`await` of the
rejected promise inside the `catch` block rethrows out of `notify`). -/
def statusPhase (cfg : PluginConfig) (sha1 state description : String)
    (reportUrl : Option String) (env : NotifyEnv) : List Effect × Except Thrown Unit :=
  if cfg.setCommitStatus then
    let callEff := Effect.callCreateCommitStatus cfg.apiOpt.owner cfg.apiOpt.repository
      sha1 state description "regression-tests" reportUrl
    match env.createCommitStatusResult with
    | Except.ok _ =>
        ([callEff, Effect.log LogLevel.info ("Updated commit status for " ++ sha1 ++ " .")],
         Except.ok ())
    | Except.error reason =>
        let h := errorHandler reason
        (callEff :: h.1.map (fun p => Effect.log p.1 p.2), Except.error h.2)
  else
    ([], Except.ok ())

/-- The `CommentToPrBody` record assembled inside `notify` (source lines
147-161): policy and target fields, branch name, head commit id, the four
counts, and the report URL only when truthy. -/
def assembledPrCommentBody (cfg : PluginConfig) (b : BranchObj) (sha1 : String)
    (failedItemsCount newItemsCount deletedItemsCount passedItemsCount : Nat)
    (reportUrl : Option String) : CommentToPrBody :=
  { owner := cfg.apiOpt.owner
    repository := cfg.apiOpt.repository
    behavior := cfg.behavior
    branchName := b.name
    headOid := sha1
    failedItemsCount := failedItemsCount
    newItemsCount := newItemsCount
    deletedItemsCount := deletedItemsCount
    passedItemsCount := passedItemsCount
    shortDescription := cfg.shortDescription
    regconfigId := cfg.regconfigId
    reportUrl := if jsTruthy reportUrl then reportUrl else none }

/-- The pull-request comment phase (source lines 145-197).  Only entered when
`prComment` is enabled; requires `head.type === "branch" && head.branch`, else
logs the detached-HEAD warning.  On a branch it lists pull requests for
`owner:branchName`; a non-empty list leads to a comment on the first entry's
number, an empty list to a warning, and a failure of either remote call to the
rethrown `errorHandler` value. -/
def commentPhase (cfg : PluginConfig) (head : Head) (sha1 : String)
    (failedItemsCount newItemsCount deletedItemsCount passedItemsCount : Nat)
    (reportUrl : Option String) (env : NotifyEnv) : List Effect × Except Thrown Unit :=
  if cfg.prComment then
    match head.type == "branch", head.branch with
    | true, some b =>
      let prCommentBody : CommentToPrBody :=
        assembledPrCommentBody cfg b sha1 failedItemsCount newItemsCount deletedItemsCount
          passedItemsCount reportUrl
      let verboseEff := Effect.log LogLevel.verbose "params.reportUrl: "
      let listEff := Effect.callPullsList cfg.apiOpt.owner cfg.apiOpt.repository
        (cfg.apiOpt.owner ++ ":" ++ b.name)
      match env.pullsListResult with
      | Except.error reason =>
          let h := errorHandler reason
          (verboseEff :: listEff :: h.1.map (fun p => Effect.log p.1 p.2), Except.error h.2)
      | Except.ok pulls =>
        match pulls with
        | pr :: _ =>
          let commentEff := Effect.callCreateComment cfg.apiOpt.owner cfg.apiOpt.repository
            pr.number (createCommentBody prCommentBody)
          match env.createCommentResult with
          | Except.ok _ =>
              ([verboseEff, listEff, Effect.log LogLevel.verbose "pr: ", commentEff,
                Effect.log LogLevel.info ("Commented on PR " ++ cfg.apiOpt.owner ++ "/" ++
                  cfg.apiOpt.repository ++ "#" ++ toString pr.number ++ " .")],
               Except.ok ())
          | Except.error reason =>
              let h := errorHandler reason
              (verboseEff :: listEff :: Effect.log LogLevel.verbose "pr: " :: commentEff ::
                 h.1.map (fun p => Effect.log p.1 p.2),
               Except.error h.2)
        | [] =>
          ([verboseEff, listEff,
            Effect.log LogLevel.warn ("No pull request found for branch " ++ b.name ++ ".")],
           Except.ok ())
    | _, _ => ([Effect.log LogLevel.warn "HEAD is not attached into any branches."], Except.ok ())
  else
    ([], Except.ok ())

/-- The part of `notify` after `sha1` has been resolved (source lines
110-205): build `updateStatusBody`, run the status phase; if it did not
reject, run the comment phase; if that did not reject either, skip the spinner
under `noEmit` and otherwise start and stop it. -/
def notifyCore (cfg : PluginConfig) (head : Head) (params : NotifyParams)
    (env : NotifyEnv) (sha1 : String) : List Effect × Except Thrown Unit :=
  let _updateStatusBody := buildUpdateStatusBody cfg sha1
    (deriveState params.comparisonResult) (deriveDescription params.comparisonResult)
    params.reportUrl
    { failedItemsCount := params.comparisonResult.failedItems.length
      newItemsCount := params.comparisonResult.newItems.length
      deletedItemsCount := params.comparisonResult.deletedItems.length
      passedItemsCount := params.comparisonResult.passedItems.length
      shortDescription := cfg.shortDescription }
  match statusPhase cfg sha1 (deriveState params.comparisonResult)
      (deriveDescription params.comparisonResult) params.reportUrl env with
  | (tr, Except.error t) => (tr, Except.error t)
  | (tr, Except.ok _) =>
    match commentPhase cfg head sha1 params.comparisonResult.failedItems.length
        params.comparisonResult.newItems.length params.comparisonResult.deletedItems.length
        params.comparisonResult.passedItems.length params.reportUrl env with
    | (tc, Except.error t) => (tr ++ tc, Except.error t)
    | (tc, Except.ok _) =>
      if cfg.noEmit then
        (tr ++ tc, Except.ok ())
      else
        (tr ++ tc ++ [Effect.spinnerStart, Effect.spinnerStop], Except.ok ())

/-- The `notify` method (source lines 90-205).  Computes the counts, `state` and
`description`; resolves `sha1` from HEAD (logging an error and resolving when
unresolved); then runs `notifyCore`.  The result is the effect trace together
with the promise outcome; `Except.error` is a rejected promise. -/
def notify (cfg : PluginConfig) (head : Head) (params : NotifyParams)
    (env : NotifyEnv) : List Effect × Except Thrown Unit :=
  match headSha1 head with
  | none => ([Effect.log LogLevel.error "Can't detect HEAD branch or commit."], Except.ok ())
  | some sha1 => notifyCore cfg head params env sha1

/-- The configuration options object of the plugin (`GitHubPluginOption`,
source lines 11-22); absent/undefined fields are `none`. -/
structure GitHubPluginOption where
  clientId : Option String
  installationId : Option String
  owner : Option String
  repository : Option String
  regconfigId : Option String
  prComment : Option Bool
  prCommentBehavior : Option String
  setCommitStatus : Option Bool
  customEndpoint : Option String
  shortDescription : Option Bool
  deriving DecidableEq, Repr

/-- The `PluginCreateOptions` record: the dry-run flag plus the options object. -/
structure PluginCreateOptions where
  noEmit : Bool
  options : GitHubPluginOption
  deriving DecidableEq, Repr

/-- The `init` method (source lines 71-88) restricted to the fields it derives:
`prComment` and `setCommitStatus` are `opt !== false`, the behavior defaults to
`"default"`, `shortDescription` to `false` and `regconfigId` to `""` via `??`.
The `clientId` decode path and endpoint selection are external collaborators;
the target is taken from the options object as in the cast at line 77. -/
def initPolicy (config : PluginCreateOptions) : PluginConfig :=
  { noEmit := config.noEmit
    apiOpt := { owner := config.options.owner.getD ""
                repository := config.options.repository.getD "" }
    prComment := config.options.prComment != some false
    behavior := config.options.prCommentBehavior.getD "default"
    setCommitStatus := config.options.setCommitStatus != some false
    shortDescription := config.options.shortDescription.getD false
    regconfigId := config.options.regconfigId.getD "" }

end GithubNotifier

namespace GithubNotifier

/-! ### Line-structured view of the rendered comment body -/

/-- Join a list of lines with newline separators (no trailing newline). -/
def joinLines : List String → String
  | [] => ""
  | [l] => l
  | l :: ls => l ++ "\n" ++ joinLines ls

/-- The seven lines of the rendered comment body: header, the four count lines
in fixed order, then one slot line for the short-description note and one for
the report link, each consisting of the template's four-space indent plus the
conditional content. -/
def commentLines (body : CommentToPrBody) : List String :=
  ["Comparison result:",
   "    - Failed items: " ++ toString body.failedItemsCount,
   "    - New items: " ++ toString body.newItemsCount,
   "    - Deleted items: " ++ toString body.deletedItemsCount,
   "    - Passed items: " ++ toString body.passedItemsCount,
   "    " ++ (if body.shortDescription then " - Short descriptions enabled" else ""),
   "    " ++ (match body.reportUrl with
              | some u => if u != "" then " - [Report URL](" ++ u ++ ")" else ""
              | none => "")]

theorem merge_failed_line (Z : String) :
    "\n" ++ ("    - Failed items: " ++ Z) = "\n    - Failed items: " ++ Z := by
  rw [← String.append_assoc]; rfl

theorem merge_new_line (Z : String) :
    "\n" ++ ("    - New items: " ++ Z) = "\n    - New items: " ++ Z := by
  rw [← String.append_assoc]; rfl

theorem merge_deleted_line (Z : String) :
    "\n" ++ ("    - Deleted items: " ++ Z) = "\n    - Deleted items: " ++ Z := by
  rw [← String.append_assoc]; rfl

theorem merge_passed_line (Z : String) :
    "\n" ++ ("    - Passed items: " ++ Z) = "\n    - Passed items: " ++ Z := by
  rw [← String.append_assoc]; rfl

theorem merge_indent_line (Z : String) :
    "\n" ++ ("    " ++ Z) = "\n    " ++ Z := by
  rw [← String.append_assoc]; rfl

theorem merge_header_line (Z : String) :
    "Comparison result:" ++ ("\n    - Failed items: " ++ Z) =
      "Comparison result:\n    - Failed items: " ++ Z := by
  rw [← String.append_assoc]; rfl

/-- The flat template concatenation equals the newline-join of its seven
lines, for arbitrary interpolated fragments. -/
theorem render_shape (f' n' d' p' X Y : String) :
    "Comparison result:\n    - Failed items: " ++ f' ++ "\n    - New items: " ++ n' ++
      "\n    - Deleted items: " ++ d' ++ "\n    - Passed items: " ++ p' ++ "\n    " ++ X ++
      "\n    " ++ Y =
    joinLines ["Comparison result:", "    - Failed items: " ++ f', "    - New items: " ++ n',
      "    - Deleted items: " ++ d', "    - Passed items: " ++ p', "    " ++ X, "    " ++ Y] := by
  simp only [joinLines, String.append_assoc, merge_failed_line, merge_new_line,
    merge_deleted_line, merge_passed_line, merge_indent_line, merge_header_line]

end GithubNotifier

namespace GithubNotifier

/-! ### Sample inputs used by witnesses and counterexamples -/

/-- A comment payload with counts 2/0/1/5, short description off, no URL. -/
def bodyEx : CommentToPrBody :=
  { owner := "o", repository := "r", behavior := "default", branchName := "feat",
    headOid := "abc", failedItemsCount := 2, newItemsCount := 0, deletedItemsCount := 1,
    passedItemsCount := 5, shortDescription := false, regconfigId := "", reportUrl := none }

/-- A comparison result with counts 2/0/1/5. -/
def comparisonEx : ComparisonResult :=
  { failedItems := ["a", "b"], newItems := [], deletedItems := ["c"],
    passedItems := ["d", "e", "f", "g", "h"] }

/-- Notification parameters built from `comparisonEx`, no report URL. -/
def paramsEx : NotifyParams := { comparisonResult := comparisonEx, reportUrl := none }

/-- Policy: both remote actions enabled, not a dry run. -/
def cfgAllOn : PluginConfig :=
  { noEmit := false, apiOpt := { owner := "o", repository := "r" }, prComment := true,
    setCommitStatus := true, behavior := "default", shortDescription := false, regconfigId := "" }

/-- Policy: both remote actions disabled. -/
def cfgAllOff : PluginConfig :=
  { cfgAllOn with prComment := false, setCommitStatus := false }

/-- Policy: both remote actions enabled and the dry-run flag set. -/
def cfgNoEmitEx : PluginConfig := { cfgAllOn with noEmit := true }

/-- HEAD on branch `feat` whose tip commit is `abc`. -/
def headBranchEx : Head :=
  { type := "branch", branch := some { name := "feat", commit := { hash := "abc" } },
    commit := none }

/-- Detached HEAD at commit `abc`. -/
def headDetachedEx : Head := { type := "commit", branch := none, commit := some { hash := "abc" } }

/-- Unresolvable HEAD: neither branch nor commit present. -/
def headUnresolvedEx : Head := { type := "unknown", branch := none, commit := none }

/-- Remote service: every call succeeds, one open pull request (number 7). -/
def envAllOk : NotifyEnv :=
  { createCommitStatusResult := Except.ok (), pullsListResult := Except.ok [{ number := 7 }],
    createCommentResult := Except.ok () }

/-- Remote service: the commit-status call fails with a structured
`StatusCodeError` carrying the message `bad credentials`. -/
def envStatusFails : NotifyEnv :=
  { envAllOk with
    createCommitStatusResult :=
      Except.error (RemoteReason.ghApp { statusCode := 401, errMessage := "bad credentials" }) }

/-- Remote service: the pull-request listing fails with an unstructured error. -/
def envListFails : NotifyEnv :=
  { envAllOk with pullsListResult := Except.error (RemoteReason.unknown "ECONNRESET") }

/-- Remote service: only the comment-creation call fails, with a structured
`StatusCodeError` carrying the message `forbidden`. -/
def envCommentFails : NotifyEnv :=
  { envAllOk with
    createCommentResult :=
      Except.error (RemoteReason.ghApp { statusCode := 403, errMessage := "forbidden" }) }

/-! ### C4: outcome classification -/

/-- C4: the derived state is `"failure"` iff `failed + new + deleted > 0` and
`"success"` iff that sum is zero; the passed count never affects the state; the
description is exactly `"Regression testing passed"` in the success state and
exactly `"Regression testing failed"` in the failure state, and is always one
of those two fixed strings (no counts interpolated). -/
theorem deriveState_deriveDescription_spec (cr : ComparisonResult) :
    (deriveState cr = "failure" ↔
      0 < cr.failedItems.length + cr.newItems.length + cr.deletedItems.length) ∧
    (deriveState cr = "success" ↔
      cr.failedItems.length + cr.newItems.length + cr.deletedItems.length = 0) ∧
    (∀ ps, deriveState { cr with passedItems := ps } = deriveState cr) ∧
    (deriveState cr = "success" → deriveDescription cr = "Regression testing passed") ∧
    (deriveState cr = "failure" → deriveDescription cr = "Regression testing failed") ∧
    (deriveDescription cr = "Regression testing passed" ∨
      deriveDescription cr = "Regression testing failed") := by
  rcases Nat.eq_zero_or_pos
      (cr.failedItems.length + cr.newItems.length + cr.deletedItems.length) with h | h
  · simp [deriveState, deriveDescription, h]
  · have h0 : cr.failedItems.length + cr.newItems.length + cr.deletedItems.length ≠ 0 := by omega
    simp [deriveState, deriveDescription, h0, h]

/-- Witness for C4 at counts 2/0/1/5. -/
theorem deriveState_deriveDescription_spec_witness :
    deriveState comparisonEx = "failure" ∧
      deriveDescription comparisonEx = "Regression testing failed" := by
  have h := deriveState_deriveDescription_spec comparisonEx
  have hs : deriveState comparisonEx = "failure" := h.1.mpr (by decide)
  exact ⟨hs, h.2.2.2.2.1 hs⟩

end GithubNotifier

namespace GithubNotifier

/-! ### C5: comment rendering -/

/-- C5 counterexample: with `shortDescription = false` and no report URL, the
rendered body at counts 2/0/1/5 is NOT just the header plus the four count
lines — the template still appends the two indented slot lines, so the claimed
exact output is wrong. -/
theorem createCommentBody_not_header_plus_four :
    createCommentBody bodyEx ≠
      "Comparison result:\n    - Failed items: 2\n    - New items: 0\n    - Deleted items: 1\n    - Passed items: 5" := by
  decide

/-- C5 (amended): for every payload the rendered body is exactly the
newline-join of SEVEN lines: the header, the four count lines in fixed order
(failed, new, deleted, passed), then one slot line for the short-description
note and one for the report link; each slot line always carries the template's
four-space indent, and its content beyond the indent is present iff
`shortDescription` is true (resp. a truthy report URL was supplied), so with
`shortDescription = false` and no URL the last two lines are whitespace-only
rather than absent. -/
theorem createCommentBody_eq_joinLines (body : CommentToPrBody) :
    createCommentBody body = joinLines (commentLines body) := by
  unfold createCommentBody commentLines
  exact render_shape _ _ _ _ _ _

end GithubNotifier

namespace GithubNotifier

/-! ### C6: unresolved HEAD -/

/-- C6: when HEAD is neither a branch nor a bare commit, `notify` logs the
condition and resolves successfully; its whole trace is that single error log,
so no remote action is performed and nothing is thrown. -/
theorem notify_unresolved_head (cfg : PluginConfig) (head : Head) (params : NotifyParams)
    (env : NotifyEnv) (hb : head.branch = none) (hc : head.commit = none) :
    notify cfg head params env =
      ([Effect.log LogLevel.error "Can't detect HEAD branch or commit."], Except.ok ()) := by
  unfold notify
  simp [headSha1, hb, hc]

/-- Witness for C6 at the concrete unresolved HEAD. -/
theorem notify_unresolved_head_witness :
    notify cfgAllOn headUnresolvedEx paramsEx envAllOk =
      ([Effect.log LogLevel.error "Can't detect HEAD branch or commit."], Except.ok ()) :=
  notify_unresolved_head cfgAllOn headUnresolvedEx paramsEx envAllOk rfl rfl

/-! ### C10: initialization defaults -/

/-- C10: at initialization `prComment` and `setCommitStatus` are true exactly
when the corresponding option is not the literal `false` (so absent or `true`
both enable them); the comment behavior defaults to `"default"`, the short
description to `false` and the regconfig id to `""` when absent. -/
theorem initPolicy_defaults (c : PluginCreateOptions) :
    ((initPolicy c).prComment = true ↔ c.options.prComment ≠ some false) ∧
    ((initPolicy c).setCommitStatus = true ↔ c.options.setCommitStatus ≠ some false) ∧
    (c.options.prCommentBehavior = none → (initPolicy c).behavior = "default") ∧
    (c.options.shortDescription = none → (initPolicy c).shortDescription = false) ∧
    (c.options.regconfigId = none → (initPolicy c).regconfigId = "") := by
  refine ⟨?_, ?_, ?_, ?_, ?_⟩
  · simp [initPolicy]
  · simp [initPolicy]
  · intro h; simp [initPolicy, h]
  · intro h; simp [initPolicy, h]
  · intro h; simp [initPolicy, h]

/-- An options object with every field absent. -/
def emptyCreateOptions : PluginCreateOptions :=
  { noEmit := false,
    options :=
      { clientId := none, installationId := none, owner := none, repository := none,
        regconfigId := none, prComment := none, prCommentBehavior := none,
        setCommitStatus := none, customEndpoint := none, shortDescription := none } }

/-- Witness for C10: with every option absent, both flags come out enabled and
the remaining fields take their documented defaults. -/
theorem initPolicy_defaults_witness :
    (initPolicy emptyCreateOptions).prComment = true ∧
    (initPolicy emptyCreateOptions).setCommitStatus = true ∧
    (initPolicy emptyCreateOptions).behavior = "default" ∧
    (initPolicy emptyCreateOptions).shortDescription = false ∧
    (initPolicy emptyCreateOptions).regconfigId = "" := by
  have h := initPolicy_defaults emptyCreateOptions
  exact ⟨h.1.mpr (by decide), h.2.1.mpr (by decide), h.2.2.1 rfl, h.2.2.2.1 rfl, h.2.2.2.2 rfl⟩

end GithubNotifier

namespace GithubNotifier

/-! ### C9: both policies disabled -/

/-- C9: with `setCommitStatus = false` and `prComment = false` and a
resolvable HEAD, `notify` performs no remote call and resolves successfully
(no failure is produced, so the collected-failure view is empty). -/
theorem notify_policy_off_no_remote (cfg : PluginConfig) (head : Head)
    (params : NotifyParams) (env : NotifyEnv)
    (hs : cfg.setCommitStatus = false) (hp : cfg.prComment = false)
    (hr : (headSha1 head).isSome = true) :
    (∀ e ∈ (notify cfg head params env).1, e.isRemoteCall = false) ∧
    (notify cfg head params env).2 = Except.ok () := by
  unfold notify
  cases hh : headSha1 head with
  | none => rw [hh] at hr; cases hr
  | some sha =>
    simp only [notifyCore, statusPhase, commentPhase, hs, hp, if_false, Bool.false_eq_true,
      ite_false]
    cases cfg.noEmit <;> simp [Effect.isRemoteCall]

/-- Witness for C9 at a branch HEAD with both policies off. -/
theorem notify_policy_off_no_remote_witness :
    (∀ e ∈ (notify cfgAllOff headBranchEx paramsEx envAllOk).1, e.isRemoteCall = false) ∧
    (notify cfgAllOff headBranchEx paramsEx envAllOk).2 = Except.ok () :=
  notify_policy_off_no_remote cfgAllOff headBranchEx paramsEx envAllOk rfl rfl rfl

/-! ### C3: dry-run flag -/

/-- C3: contrary to the dry-run claim, with `noEmit = true` (and both policy
flags enabled, HEAD on a branch, remote calls succeeding) `notify` still
issues the commit-status update and the comment-phase remote calls; the
`noEmit` check in the code runs only after the remote calls and merely skips
the spinner. -/
theorem notify_noEmit_still_calls_remote :
    cfgNoEmitEx.noEmit = true ∧
    Effect.callCreateCommitStatus "o" "r" "abc" "failure" "Regression testing failed"
        "regression-tests" none ∈ (notify cfgNoEmitEx headBranchEx paramsEx envAllOk).1 ∧
    ((notify cfgNoEmitEx headBranchEx paramsEx envAllOk).1.any Effect.isCommentPhaseRemote)
      = true := by
  decide

end GithubNotifier

namespace GithubNotifier

/-! ### Phase-level lemmas -/

theorem headSha1_of_branch (head : Head) (b : BranchObj) (hb : head.branch = some b) :
    headSha1 head = some b.commit.hash := by
  unfold headSha1
  rw [hb]

theorem headSha1_of_commit (head : Head) (c : CommitObj) (hb : head.branch = none)
    (hc : head.commit = some c) : headSha1 head = some c.hash := by
  unfold headSha1
  rw [hb, hc]
  rfl

theorem statusPhase_off (cfg : PluginConfig) (sha1 state description : String)
    (reportUrl : Option String) (env : NotifyEnv) (hs : cfg.setCommitStatus = false) :
    statusPhase cfg sha1 state description reportUrl env = ([], Except.ok ()) := by
  unfold statusPhase
  rw [hs]
  rfl

theorem statusPhase_success (cfg : PluginConfig) (sha1 state description : String)
    (reportUrl : Option String) (env : NotifyEnv) (hs : cfg.setCommitStatus = true)
    (he : env.createCommitStatusResult = Except.ok ()) :
    statusPhase cfg sha1 state description reportUrl env =
      ([Effect.callCreateCommitStatus cfg.apiOpt.owner cfg.apiOpt.repository sha1 state
          description "regression-tests" reportUrl,
        Effect.log LogLevel.info ("Updated commit status for " ++ sha1 ++ " .")],
       Except.ok ()) := by
  unfold statusPhase
  rw [hs, he]
  rfl

theorem statusPhase_failure (cfg : PluginConfig) (sha1 state description : String)
    (reportUrl : Option String) (env : NotifyEnv) (reason : RemoteReason)
    (hs : cfg.setCommitStatus = true)
    (he : env.createCommitStatusResult = Except.error reason) :
    statusPhase cfg sha1 state description reportUrl env =
      (Effect.callCreateCommitStatus cfg.apiOpt.owner cfg.apiOpt.repository sha1 state
          description "regression-tests" reportUrl ::
        (errorHandler reason).1.map (fun p => Effect.log p.1 p.2),
       Except.error (errorHandler reason).2) := by
  unfold statusPhase
  rw [hs, he]
  rfl

theorem statusPhase_snd_ok (cfg : PluginConfig) (sha1 state description : String)
    (reportUrl : Option String) (env : NotifyEnv)
    (he : env.createCommitStatusResult = Except.ok ()) :
    (statusPhase cfg sha1 state description reportUrl env).2 = Except.ok () := by
  unfold statusPhase
  rw [he]
  split <;> rfl

theorem commentPhase_off (cfg : PluginConfig) (head : Head) (sha1 : String)
    (f n d p : Nat) (reportUrl : Option String) (env : NotifyEnv)
    (hp : cfg.prComment = false) :
    commentPhase cfg head sha1 f n d p reportUrl env = ([], Except.ok ()) := by
  unfold commentPhase
  rw [hp]
  rfl

theorem commentPhase_detached (cfg : PluginConfig) (head : Head) (sha1 : String)
    (f n d p : Nat) (reportUrl : Option String) (env : NotifyEnv)
    (hp : cfg.prComment = true) (hb : head.branch = none) :
    commentPhase cfg head sha1 f n d p reportUrl env =
      ([Effect.log LogLevel.warn "HEAD is not attached into any branches."], Except.ok ()) := by
  unfold commentPhase
  cases htb : head.type == "branch" <;> simp [hp, hb, htb]

end GithubNotifier

namespace GithubNotifier

theorem commentPhase_branch_list_error (cfg : PluginConfig) (head : Head) (sha1 : String)
    (f n d p : Nat) (r : Option String) (env : NotifyEnv) (b : BranchObj)
    (reason : RemoteReason) (hp : cfg.prComment = true) (ht : head.type = "branch")
    (hb : head.branch = some b) (he : env.pullsListResult = Except.error reason) :
    commentPhase cfg head sha1 f n d p r env =
      (Effect.log LogLevel.verbose "params.reportUrl: " ::
        Effect.callPullsList cfg.apiOpt.owner cfg.apiOpt.repository
          (cfg.apiOpt.owner ++ ":" ++ b.name) ::
        (errorHandler reason).1.map (fun q => Effect.log q.1 q.2),
       Except.error (errorHandler reason).2) := by
  unfold commentPhase
  rw [hp, ht, hb, he]
  rfl

theorem commentPhase_branch_no_pr (cfg : PluginConfig) (head : Head) (sha1 : String)
    (f n d p : Nat) (r : Option String) (env : NotifyEnv) (b : BranchObj)
    (hp : cfg.prComment = true) (ht : head.type = "branch")
    (hb : head.branch = some b) (he : env.pullsListResult = Except.ok []) :
    commentPhase cfg head sha1 f n d p r env =
      ([Effect.log LogLevel.verbose "params.reportUrl: ",
        Effect.callPullsList cfg.apiOpt.owner cfg.apiOpt.repository
          (cfg.apiOpt.owner ++ ":" ++ b.name),
        Effect.log LogLevel.warn ("No pull request found for branch " ++ b.name ++ ".")],
       Except.ok ()) := by
  unfold commentPhase
  rw [hp, ht, hb, he]
  rfl

theorem commentPhase_branch_found_ok (cfg : PluginConfig) (head : Head) (sha1 : String)
    (f n d p : Nat) (r : Option String) (env : NotifyEnv) (b : BranchObj)
    (pr : PullRequest) (rest : List PullRequest)
    (hp : cfg.prComment = true) (ht : head.type = "branch")
    (hb : head.branch = some b) (he : env.pullsListResult = Except.ok (pr :: rest))
    (hc : env.createCommentResult = Except.ok ()) :
    commentPhase cfg head sha1 f n d p r env =
      ([Effect.log LogLevel.verbose "params.reportUrl: ",
        Effect.callPullsList cfg.apiOpt.owner cfg.apiOpt.repository
          (cfg.apiOpt.owner ++ ":" ++ b.name),
        Effect.log LogLevel.verbose "pr: ",
        Effect.callCreateComment cfg.apiOpt.owner cfg.apiOpt.repository pr.number
          (createCommentBody (assembledPrCommentBody cfg b sha1 f n d p r)),
        Effect.log LogLevel.info ("Commented on PR " ++ cfg.apiOpt.owner ++ "/" ++
          cfg.apiOpt.repository ++ "#" ++ toString pr.number ++ " .")],
       Except.ok ()) := by
  unfold commentPhase
  rw [hp, ht, hb, he, hc]
  rfl

theorem commentPhase_branch_found_err (cfg : PluginConfig) (head : Head) (sha1 : String)
    (f n d p : Nat) (r : Option String) (env : NotifyEnv) (b : BranchObj)
    (pr : PullRequest) (rest : List PullRequest) (reason : RemoteReason)
    (hp : cfg.prComment = true) (ht : head.type = "branch")
    (hb : head.branch = some b) (he : env.pullsListResult = Except.ok (pr :: rest))
    (hc : env.createCommentResult = Except.error reason) :
    commentPhase cfg head sha1 f n d p r env =
      (Effect.log LogLevel.verbose "params.reportUrl: " ::
        Effect.callPullsList cfg.apiOpt.owner cfg.apiOpt.repository
          (cfg.apiOpt.owner ++ ":" ++ b.name) ::
        Effect.log LogLevel.verbose "pr: " ::
        Effect.callCreateComment cfg.apiOpt.owner cfg.apiOpt.repository pr.number
          (createCommentBody (assembledPrCommentBody cfg b sha1 f n d p r)) ::
        (errorHandler reason).1.map (fun q => Effect.log q.1 q.2),
       Except.error (errorHandler reason).2) := by
  unfold commentPhase
  rw [hp, ht, hb, he, hc]
  rfl

/-- In the branch case the pull-request listing call is always issued,
whatever the remote outcomes. -/
theorem commentPhase_attempts_list (cfg : PluginConfig) (head : Head) (sha1 : String)
    (f n d p : Nat) (r : Option String) (env : NotifyEnv) (b : BranchObj)
    (hp : cfg.prComment = true) (ht : head.type = "branch") (hb : head.branch = some b) :
    Effect.callPullsList cfg.apiOpt.owner cfg.apiOpt.repository
      (cfg.apiOpt.owner ++ ":" ++ b.name) ∈ (commentPhase cfg head sha1 f n d p r env).1 := by
  rcases he : env.pullsListResult with reason | pulls
  · rw [commentPhase_branch_list_error cfg head sha1 f n d p r env b reason hp ht hb he]
    simp
  · rcases pulls with _ | ⟨pr, rest⟩
    · rw [commentPhase_branch_no_pr cfg head sha1 f n d p r env b hp ht hb he]
      simp
    · rcases hc : env.createCommentResult with reason2 | u
      · rw [commentPhase_branch_found_err cfg head sha1 f n d p r env b pr rest reason2 hp ht hb he hc]
        simp
      · rw [commentPhase_branch_found_ok cfg head sha1 f n d p r env b pr rest hp ht hb he hc]
        simp

end GithubNotifier

namespace GithubNotifier

/-! ### C8: pull-request lookup -/

/-- C8: in the comment phase on a branch, a non-empty pull-request list leads
to a comment on its FIRST element's number; an empty list is handled as "not
found" — the phase resolves successfully after logging a warning and issues no
comment call; a failure of the lookup itself is propagated as the classified
rethrown error instead, so "not found" and "could not check" stay
distinguishable outcomes. -/
theorem pullRequestLookup_spec (cfg : PluginConfig) (head : Head) (sha1 : String)
    (f n d p : Nat) (r : Option String) (env : NotifyEnv) (b : BranchObj)
    (hp : cfg.prComment = true) (ht : head.type = "branch") (hb : head.branch = some b) :
    (∀ pr rest, env.pullsListResult = Except.ok (pr :: rest) →
      Effect.callCreateComment cfg.apiOpt.owner cfg.apiOpt.repository pr.number
          (createCommentBody (assembledPrCommentBody cfg b sha1 f n d p r))
        ∈ (commentPhase cfg head sha1 f n d p r env).1) ∧
    (env.pullsListResult = Except.ok [] →
      commentPhase cfg head sha1 f n d p r env =
        ([Effect.log LogLevel.verbose "params.reportUrl: ",
          Effect.callPullsList cfg.apiOpt.owner cfg.apiOpt.repository
            (cfg.apiOpt.owner ++ ":" ++ b.name),
          Effect.log LogLevel.warn ("No pull request found for branch " ++ b.name ++ ".")],
         Except.ok ())) ∧
    (∀ reason, env.pullsListResult = Except.error reason →
      (commentPhase cfg head sha1 f n d p r env).2 = Except.error (errorHandler reason).2) := by
  refine ⟨?_, ?_, ?_⟩
  · intro pr rest he
    rcases hc : env.createCommentResult with reason2 | u
    · rw [commentPhase_branch_found_err cfg head sha1 f n d p r env b pr rest reason2 hp ht hb he hc]
      simp
    · rw [commentPhase_branch_found_ok cfg head sha1 f n d p r env b pr rest hp ht hb he hc]
      simp
  · intro he
    exact commentPhase_branch_no_pr cfg head sha1 f n d p r env b hp ht hb he
  · intro reason he
    rw [commentPhase_branch_list_error cfg head sha1 f n d p r env b reason hp ht hb he]

/-- Witness for C8: concrete branch-head comment phase against a service with
one open pull request (number 7): the comment call targets number 7. -/
theorem pullRequestLookup_spec_witness :
    Effect.callCreateComment "o" "r" 7
        (createCommentBody (assembledPrCommentBody cfgAllOn { name := "feat", commit := { hash := "abc" } } "abc" 2 0 1 5 none))
      ∈ (commentPhase cfgAllOn headBranchEx "abc" 2 0 1 5 none envAllOk).1 := by
  have h := pullRequestLookup_spec cfgAllOn headBranchEx "abc" 2 0 1 5 none envAllOk
    { name := "feat", commit := { hash := "abc" } } rfl rfl rfl
  exact h.1 { number := 7 } [] rfl

end GithubNotifier

namespace GithubNotifier

/-- Either the status phase rejects and `notifyCore` is exactly the status
phase's trace and error, or the status phase succeeds and `notifyCore` appends
the comment phase's trace (plus the spinner when the comment phase succeeded
and `noEmit` is off) and returns the comment phase's outcome. -/
theorem notifyCore_cases (cfg : PluginConfig) (head : Head) (params : NotifyParams)
    (env : NotifyEnv) (sha1 : String) :
    (∃ t, (statusPhase cfg sha1 (deriveState params.comparisonResult)
        (deriveDescription params.comparisonResult) params.reportUrl env).2 = Except.error t ∧
      notifyCore cfg head params env sha1 =
        ((statusPhase cfg sha1 (deriveState params.comparisonResult)
            (deriveDescription params.comparisonResult) params.reportUrl env).1,
         Except.error t)) ∨
    ((statusPhase cfg sha1 (deriveState params.comparisonResult)
        (deriveDescription params.comparisonResult) params.reportUrl env).2 = Except.ok () ∧
      notifyCore cfg head params env sha1 =
        ((statusPhase cfg sha1 (deriveState params.comparisonResult)
            (deriveDescription params.comparisonResult) params.reportUrl env).1 ++
          (commentPhase cfg head sha1 params.comparisonResult.failedItems.length
            params.comparisonResult.newItems.length params.comparisonResult.deletedItems.length
            params.comparisonResult.passedItems.length params.reportUrl env).1 ++
          (match (commentPhase cfg head sha1 params.comparisonResult.failedItems.length
              params.comparisonResult.newItems.length params.comparisonResult.deletedItems.length
              params.comparisonResult.passedItems.length params.reportUrl env).2 with
           | Except.error _ => []
           | Except.ok _ =>
             if cfg.noEmit then [] else [Effect.spinnerStart, Effect.spinnerStop]),
         (commentPhase cfg head sha1 params.comparisonResult.failedItems.length
           params.comparisonResult.newItems.length params.comparisonResult.deletedItems.length
           params.comparisonResult.passedItems.length params.reportUrl env).2)) := by
  simp only [notifyCore]
  rcases hsp : statusPhase cfg sha1 (deriveState params.comparisonResult)
      (deriveDescription params.comparisonResult) params.reportUrl env with ⟨tr, res⟩
  rcases res with t | u
  · left
    exact ⟨t, rfl, rfl⟩
  · right
    refine ⟨rfl, ?_⟩
    rcases hcp : commentPhase cfg head sha1 params.comparisonResult.failedItems.length
        params.comparisonResult.newItems.length params.comparisonResult.deletedItems.length
        params.comparisonResult.passedItems.length params.reportUrl env with ⟨tc, res2⟩
    rcases res2 with t2 | u2
    · simp
    · cases cfg.noEmit <;> simp

/-- No effect produced by the status phase is a comment-phase remote call. -/
theorem statusPhase_no_comment_effects (cfg : PluginConfig) (sha1 state description : String)
    (reportUrl : Option String) (env : NotifyEnv) :
    ∀ e ∈ (statusPhase cfg sha1 state description reportUrl env).1,
      e.isCommentPhaseRemote = false := by
  unfold statusPhase
  split
  · rcases env.createCommitStatusResult with reason | u
    · intro e hm
      rcases List.mem_cons.mp hm with h1 | h2
      · subst h1; rfl
      · rcases List.mem_map.mp h2 with ⟨q, _, rfl⟩; rfl
    · intro e hm
      rcases List.mem_cons.mp hm with h1 | h2
      · subst h1; rfl
      · rcases List.mem_cons.mp h2 with h3 | h4
        · subst h3; rfl
        · cases h4
  · intro e hm
    cases hm

/-- When `setCommitStatus` is enabled the status phase always records the
commit-status call. -/
theorem statusPhase_mem_call (cfg : PluginConfig) (sha1 state description : String)
    (reportUrl : Option String) (env : NotifyEnv) (hs : cfg.setCommitStatus = true) :
    Effect.callCreateCommitStatus cfg.apiOpt.owner cfg.apiOpt.repository sha1 state
      description "regression-tests" reportUrl ∈
      (statusPhase cfg sha1 state description reportUrl env).1 := by
  rcases he : env.createCommitStatusResult with reason | u
  · rw [statusPhase_failure cfg sha1 state description reportUrl env reason hs he]
    simp
  · rw [statusPhase_success cfg sha1 state description reportUrl env hs he]
    simp

end GithubNotifier

namespace GithubNotifier

theorem notify_eq_core (cfg : PluginConfig) (head : Head) (params : NotifyParams)
    (env : NotifyEnv) (sha1 : String) (hsha : headSha1 head = some sha1) :
    notify cfg head params env = notifyCore cfg head params env sha1 := by
  unfold notify
  rw [hsha]

/-! ### C1: status-update failure versus comment phase -/

/-- C1 counterexample: with both policies enabled and HEAD on a branch, a
failing commit-status call makes `notify` reject and no comment-phase remote
call (pull-request lookup or comment creation) is ever attempted — contrary to
the claim that a status-update failure never prevents the comment attempt. -/
theorem notify_statusFailure_cex :
    cfgAllOn.prComment = true ∧ headBranchEx.type = "branch" ∧
    (notify cfgAllOn headBranchEx paramsEx envStatusFails).1.any Effect.isCommentPhaseRemote
      = false ∧
    (notify cfgAllOn headBranchEx paramsEx envStatusFails).2 ≠ Except.ok () := by
  decide

/-- C1 (amended): with `postComment` enabled and HEAD on a branch, the comment
phase is attempted (the pull-request listing call is issued) whenever the
status phase cannot reject — because `setCommitStatus` is disabled or the
status call succeeds; but when `setCommitStatus` is enabled and the status
call fails, `notify` rejects with the classified error and no comment-phase
remote call is attempted, so the two phases are NOT isolated in this code. -/
theorem notify_statusFailure_blocks_comment (cfg : PluginConfig) (head : Head)
    (params : NotifyParams) (env : NotifyEnv) (b : BranchObj)
    (hb : head.branch = some b) (ht : head.type = "branch") (hp : cfg.prComment = true) :
    ((cfg.setCommitStatus = false ∨ env.createCommitStatusResult = Except.ok ()) →
      Effect.callPullsList cfg.apiOpt.owner cfg.apiOpt.repository
        (cfg.apiOpt.owner ++ ":" ++ b.name) ∈ (notify cfg head params env).1) ∧
    (∀ reason, cfg.setCommitStatus = true →
      env.createCommitStatusResult = Except.error reason →
      ((notify cfg head params env).2 = Except.error (errorHandler reason).2 ∧
       ∀ e ∈ (notify cfg head params env).1, e.isCommentPhaseRemote = false)) := by
  have hsha := headSha1_of_branch head b hb
  rw [notify_eq_core cfg head params env b.commit.hash hsha]
  constructor
  · intro hdisj
    have hso : (statusPhase cfg b.commit.hash (deriveState params.comparisonResult)
        (deriveDescription params.comparisonResult) params.reportUrl env).2 = Except.ok () := by
      rcases hdisj with hs | he
      · rw [statusPhase_off cfg b.commit.hash (deriveState params.comparisonResult)
          (deriveDescription params.comparisonResult) params.reportUrl env hs]
      · exact statusPhase_snd_ok cfg b.commit.hash (deriveState params.comparisonResult)
          (deriveDescription params.comparisonResult) params.reportUrl env he
    rcases notifyCore_cases cfg head params env b.commit.hash with ⟨t, ht2, _⟩ | ⟨_, heq⟩
    · rw [hso] at ht2
      cases ht2
    · rw [heq]
      have hmem := commentPhase_attempts_list cfg head b.commit.hash
        params.comparisonResult.failedItems.length params.comparisonResult.newItems.length
        params.comparisonResult.deletedItems.length params.comparisonResult.passedItems.length
        params.reportUrl env b hp ht hb
      simp only [List.mem_append]
      exact Or.inl (Or.inr hmem)
  · intro reason hs he
    have hsf := statusPhase_failure cfg b.commit.hash (deriveState params.comparisonResult)
      (deriveDescription params.comparisonResult) params.reportUrl env reason hs he
    rcases notifyCore_cases cfg head params env b.commit.hash with ⟨t, ht2, heq⟩ | ⟨hok, _⟩
    · rw [hsf] at ht2
      have ht3 : (errorHandler reason).2 = t := by
        simpa using ht2
      subst ht3
      refine ⟨by rw [heq], ?_⟩
      rw [heq, hsf]
      intro e hm
      rcases List.mem_cons.mp hm with h1 | h2
      · subst h1; rfl
      · rcases List.mem_map.mp h2 with ⟨q, _, rfl⟩; rfl
    · rw [hsf] at hok
      cases hok

/-- Witness for C1 (amended) on the success path: with the status call
succeeding, the pull-request listing is attempted. -/
theorem notify_statusFailure_blocks_comment_witness :
    Effect.callPullsList "o" "r" "o:feat" ∈ (notify cfgAllOn headBranchEx paramsEx envAllOk).1 := by
  have h := notify_statusFailure_blocks_comment cfgAllOn headBranchEx paramsEx envAllOk
    { name := "feat", commit := { hash := "abc" } } rfl rfl rfl
  exact h.1 (Or.inr rfl)

end GithubNotifier

namespace GithubNotifier

/-! ### C7: detached HEAD -/

/-- C7 counterexample: on a detached HEAD with `postComment` enabled but the
(enabled) status call failing, NO warning is logged — `notify` rejects in the
status phase before reaching the comment phase, so the claim's unconditional
"logs a warning" is false. -/
theorem notify_detached_no_warning_cex :
    cfgAllOn.prComment = true ∧ headDetachedEx.branch = none ∧
    cfgAllOn.setCommitStatus = true ∧
    ((notify cfgAllOn headDetachedEx paramsEx envStatusFails).1.any
      (fun e => e == Effect.log LogLevel.warn "HEAD is not attached into any branches."))
      = false := by
  decide

/-- C7 (amended): on a detached HEAD with `postComment` enabled, no
comment-phase remote call is ever issued (no lookup, no comment post); the
commit-status update is still attempted with the detached commit's id whenever
`setCommitStatus` is enabled; and the warning is logged provided the status
phase does not reject (i.e. `setCommitStatus` is disabled or the status call
succeeds) — when the status call fails, `notify` rejects first and no warning
appears. -/
theorem notify_detached_head (cfg : PluginConfig) (head : Head) (params : NotifyParams)
    (env : NotifyEnv) (c : CommitObj)
    (hb : head.branch = none) (hc : head.commit = some c) (hp : cfg.prComment = true) :
    (∀ e ∈ (notify cfg head params env).1, e.isCommentPhaseRemote = false) ∧
    (cfg.setCommitStatus = true →
      Effect.callCreateCommitStatus cfg.apiOpt.owner cfg.apiOpt.repository c.hash
        (deriveState params.comparisonResult) (deriveDescription params.comparisonResult)
        "regression-tests" params.reportUrl ∈ (notify cfg head params env).1) ∧
    ((cfg.setCommitStatus = false ∨ env.createCommitStatusResult = Except.ok ()) →
      Effect.log LogLevel.warn "HEAD is not attached into any branches."
        ∈ (notify cfg head params env).1) := by
  have hsha := headSha1_of_commit head c hb hc
  rw [notify_eq_core cfg head params env c.hash hsha]
  have hcd := commentPhase_detached cfg head c.hash params.comparisonResult.failedItems.length
    params.comparisonResult.newItems.length params.comparisonResult.deletedItems.length
    params.comparisonResult.passedItems.length params.reportUrl env hp hb
  refine ⟨?_, ?_, ?_⟩
  · intro e hm
    rcases notifyCore_cases cfg head params env c.hash with ⟨t, _, heq⟩ | ⟨_, heq⟩
    · rw [heq] at hm
      exact statusPhase_no_comment_effects cfg c.hash _ _ _ env e hm
    · rw [heq] at hm
      simp only [List.mem_append] at hm
      rcases hm with (hm1 | hm2) | hm3
      · exact statusPhase_no_comment_effects cfg c.hash _ _ _ env e hm1
      · rw [hcd] at hm2
        simp at hm2
        subst hm2
        rfl
      · rw [hcd] at hm3
        cases hne : cfg.noEmit
        · rw [hne] at hm3
          simp at hm3
          rcases hm3 with rfl | rfl <;> rfl
        · rw [hne] at hm3
          simp at hm3
  · intro hs
    rcases notifyCore_cases cfg head params env c.hash with ⟨t, _, heq⟩ | ⟨_, heq⟩ <;> rw [heq]
    · exact statusPhase_mem_call cfg c.hash (deriveState params.comparisonResult)
        (deriveDescription params.comparisonResult) params.reportUrl env hs
    · simp only [List.mem_append]
      exact Or.inl (Or.inl (statusPhase_mem_call cfg c.hash (deriveState params.comparisonResult)
        (deriveDescription params.comparisonResult) params.reportUrl env hs))
  · intro hdisj
    have hso : (statusPhase cfg c.hash (deriveState params.comparisonResult)
        (deriveDescription params.comparisonResult) params.reportUrl env).2 = Except.ok () := by
      rcases hdisj with hs | he
      · rw [statusPhase_off cfg c.hash (deriveState params.comparisonResult)
          (deriveDescription params.comparisonResult) params.reportUrl env hs]
      · exact statusPhase_snd_ok cfg c.hash (deriveState params.comparisonResult)
          (deriveDescription params.comparisonResult) params.reportUrl env he
    rcases notifyCore_cases cfg head params env c.hash with ⟨t, ht2, _⟩ | ⟨_, heq⟩
    · rw [hso] at ht2
      cases ht2
    · rw [heq]
      simp only [List.mem_append]
      refine Or.inl (Or.inr ?_)
      rw [hcd]
      simp

/-- Witness for C7 (amended): detached HEAD, both policies on, remote calls
succeeding — the warning is logged and the status call for the detached
commit's hash is issued. -/
theorem notify_detached_head_witness :
    Effect.log LogLevel.warn "HEAD is not attached into any branches."
        ∈ (notify cfgAllOn headDetachedEx paramsEx envAllOk).1 ∧
    Effect.callCreateCommitStatus "o" "r" "abc" (deriveState comparisonEx)
        (deriveDescription comparisonEx) "regression-tests" none
      ∈ (notify cfgAllOn headDetachedEx paramsEx envAllOk).1 := by
  have h := notify_detached_head cfgAllOn headDetachedEx paramsEx envAllOk { hash := "abc" }
    rfl rfl rfl
  exact ⟨h.2.2 (Or.inr rfl), h.2.1 rfl⟩

end GithubNotifier

namespace GithubNotifier

theorem commentPhase_type_not_branch (cfg : PluginConfig) (head : Head) (sha1 : String)
    (f n d p : Nat) (r : Option String) (env : NotifyEnv)
    (hp : cfg.prComment = true) (htb : (head.type == "branch") = false) :
    commentPhase cfg head sha1 f n d p r env =
      ([Effect.log LogLevel.warn "HEAD is not attached into any branches."], Except.ok ()) := by
  unfold commentPhase
  rw [hp, htb]
  cases head.branch <;> rfl

/-- The comment phase either resolves successfully or rejects with the
classified form of a failure of one of its two remote calls. -/
theorem commentPhase_snd_cases (cfg : PluginConfig) (head : Head) (sha1 : String)
    (f n d p : Nat) (r : Option String) (env : NotifyEnv) :
    (commentPhase cfg head sha1 f n d p r env).2 = Except.ok () ∨
    ∃ reason, (env.pullsListResult = Except.error reason ∨
        env.createCommentResult = Except.error reason) ∧
      (commentPhase cfg head sha1 f n d p r env).2 = Except.error (errorHandler reason).2 := by
  cases hpc : cfg.prComment
  · left
    rw [commentPhase_off cfg head sha1 f n d p r env hpc]
  · cases htb : head.type == "branch"
    · left
      rw [commentPhase_type_not_branch cfg head sha1 f n d p r env hpc htb]
    · cases hbb : head.branch with
      | none =>
        left
        rw [commentPhase_detached cfg head sha1 f n d p r env hpc hbb]
      | some b =>
        have ht : head.type = "branch" := by
          have := htb
          simpa [beq_iff_eq] using this
        rcases henv : env.pullsListResult with reason | pulls
        · right
          refine ⟨reason, Or.inl rfl, ?_⟩
          rw [commentPhase_branch_list_error cfg head sha1 f n d p r env b reason hpc ht hbb henv]
        · rcases pulls with _ | ⟨pr, rest⟩
          · left
            rw [commentPhase_branch_no_pr cfg head sha1 f n d p r env b hpc ht hbb henv]
          · rcases hcc : env.createCommentResult with reason2 | u
            · right
              refine ⟨reason2, Or.inr rfl, ?_⟩
              rw [commentPhase_branch_found_err cfg head sha1 f n d p r env b pr rest reason2
                hpc ht hbb henv hcc]
            · left
              rw [commentPhase_branch_found_ok cfg head sha1 f n d p r env b pr rest
                hpc ht hbb henv hcc]

/-- The status phase either resolves successfully or rejects with the
classified form of a failure of the commit-status call. -/
theorem statusPhase_snd_cases (cfg : PluginConfig) (sha1 state description : String)
    (reportUrl : Option String) (env : NotifyEnv) :
    (statusPhase cfg sha1 state description reportUrl env).2 = Except.ok () ∨
    ∃ reason, env.createCommitStatusResult = Except.error reason ∧
      (statusPhase cfg sha1 state description reportUrl env).2 =
        Except.error (errorHandler reason).2 := by
  cases hs : cfg.setCommitStatus
  · left
    rw [statusPhase_off cfg sha1 state description reportUrl env hs]
  · rcases he : env.createCommitStatusResult with reason | u
    · right
      refine ⟨reason, rfl, ?_⟩
      rw [statusPhase_failure cfg sha1 state description reportUrl env reason hs he]
    · left
      exact statusPhase_snd_ok cfg sha1 state description reportUrl env he

end GithubNotifier

namespace GithubNotifier

/-! ### C2: notify can reject -/

/-- C2 counterexample: with commenting enabled, HEAD on a branch and the
pull-request listing failing with an unstructured error, the promise of `notify` REJECTS
(carrying the re-thrown reason) instead of resolving with a failure list — so
"never throws, failures returned as data" is false for this code. -/
theorem notify_throws_cex :
    (notify cfgAllOn headBranchEx paramsEx envListFails).2 =
      Except.error (Thrown.raw (RemoteReason.unknown "ECONNRESET")) := by
  decide

/-- C2 (amended): `notify` resolves when every remote call it performs
succeeds (and it never produces a failure list — the resolved value carries no
data); but a failing performed remote call makes `notify` REJECT: when
`setCommitStatus` is enabled, HEAD resolvable and the status call fails; when
commenting is enabled on a branch HEAD, the status phase cannot reject and the
pull-request listing fails; or when additionally the listing returns a
non-empty list and the comment creation fails — in each case the promise
rejects with exactly the value re-thrown by `errorHandler` for that failing
endpoint, and conversely every rejection value is the `errorHandler`
classification of one of the environment's failing endpoints. -/
theorem notify_reject_characterization (cfg : PluginConfig) (head : Head)
    (params : NotifyParams) (env : NotifyEnv) :
    (env.createCommitStatusResult = Except.ok () →
      (∀ r, env.pullsListResult ≠ Except.error r) →
      env.createCommentResult = Except.ok () →
      (notify cfg head params env).2 = Except.ok ()) ∧
    (∀ sha1 reason, headSha1 head = some sha1 → cfg.setCommitStatus = true →
      env.createCommitStatusResult = Except.error reason →
      (notify cfg head params env).2 = Except.error (errorHandler reason).2) ∧
    (∀ b reason, head.branch = some b → head.type = "branch" → cfg.prComment = true →
      (cfg.setCommitStatus = false ∨ env.createCommitStatusResult = Except.ok ()) →
      env.pullsListResult = Except.error reason →
      (notify cfg head params env).2 = Except.error (errorHandler reason).2) ∧
    (∀ b pr rest reason, head.branch = some b → head.type = "branch" →
      cfg.prComment = true →
      (cfg.setCommitStatus = false ∨ env.createCommitStatusResult = Except.ok ()) →
      env.pullsListResult = Except.ok (pr :: rest) →
      env.createCommentResult = Except.error reason →
      (notify cfg head params env).2 = Except.error (errorHandler reason).2) ∧
    (∀ t, (notify cfg head params env).2 = Except.error t →
      ∃ reason, t = (errorHandler reason).2 ∧
        (env.createCommitStatusResult = Except.error reason ∨
         env.pullsListResult = Except.error reason ∨
         env.createCommentResult = Except.error reason)) := by
  refine ⟨?_, ?_, ?_, ?_, ?_⟩
  · intro h1 h2 h3
    rcases hsha : headSha1 head with _ | sha1
    · have hn : notify cfg head params env =
          ([Effect.log LogLevel.error "Can't detect HEAD branch or commit."], Except.ok ()) := by
        unfold notify
        rw [hsha]
      rw [hn]
    · rw [notify_eq_core cfg head params env sha1 hsha]
      have hso := statusPhase_snd_ok cfg sha1 (deriveState params.comparisonResult)
        (deriveDescription params.comparisonResult) params.reportUrl env h1
      have hco : (commentPhase cfg head sha1 params.comparisonResult.failedItems.length
          params.comparisonResult.newItems.length params.comparisonResult.deletedItems.length
          params.comparisonResult.passedItems.length params.reportUrl env).2 = Except.ok () := by
        rcases commentPhase_snd_cases cfg head sha1 params.comparisonResult.failedItems.length
            params.comparisonResult.newItems.length params.comparisonResult.deletedItems.length
            params.comparisonResult.passedItems.length params.reportUrl env with
          hok | ⟨reason, hsource, _⟩
        · exact hok
        · rcases hsource with hl | hc
          · exact absurd hl (h2 reason)
          · rw [h3] at hc
            cases hc
      rcases notifyCore_cases cfg head params env sha1 with ⟨t, ht2, _⟩ | ⟨_, heq⟩
      · rw [hso] at ht2
        cases ht2
      · rw [heq]
        exact hco
  · intro sha1 reason hsha hs he
    rw [notify_eq_core cfg head params env sha1 hsha]
    have hsf := statusPhase_failure cfg sha1 (deriveState params.comparisonResult)
      (deriveDescription params.comparisonResult) params.reportUrl env reason hs he
    rcases notifyCore_cases cfg head params env sha1 with ⟨t2, ht2, heq⟩ | ⟨hok, _⟩
    · rw [hsf] at ht2
      have h4 : (errorHandler reason).2 = t2 := by simpa using ht2
      rw [heq, ← h4]
    · rw [hsf] at hok
      cases hok
  · intro b reason hb ht hp hnostat he
    have hsha := headSha1_of_branch head b hb
    rw [notify_eq_core cfg head params env b.commit.hash hsha]
    have hso : (statusPhase cfg b.commit.hash (deriveState params.comparisonResult)
        (deriveDescription params.comparisonResult) params.reportUrl env).2 = Except.ok () := by
      rcases hnostat with hs | hse
      · rw [statusPhase_off cfg b.commit.hash (deriveState params.comparisonResult)
          (deriveDescription params.comparisonResult) params.reportUrl env hs]
      · exact statusPhase_snd_ok cfg b.commit.hash (deriveState params.comparisonResult)
          (deriveDescription params.comparisonResult) params.reportUrl env hse
    have hce := commentPhase_branch_list_error cfg head b.commit.hash
      params.comparisonResult.failedItems.length params.comparisonResult.newItems.length
      params.comparisonResult.deletedItems.length params.comparisonResult.passedItems.length
      params.reportUrl env b reason hp ht hb he
    rcases notifyCore_cases cfg head params env b.commit.hash with ⟨t2, ht2, _⟩ | ⟨_, heq⟩
    · rw [hso] at ht2
      cases ht2
    · rw [heq, hce]
  · intro b pr rest reason hb ht hp hnostat he hc
    have hsha := headSha1_of_branch head b hb
    rw [notify_eq_core cfg head params env b.commit.hash hsha]
    have hso : (statusPhase cfg b.commit.hash (deriveState params.comparisonResult)
        (deriveDescription params.comparisonResult) params.reportUrl env).2 = Except.ok () := by
      rcases hnostat with hs | hse
      · rw [statusPhase_off cfg b.commit.hash (deriveState params.comparisonResult)
          (deriveDescription params.comparisonResult) params.reportUrl env hs]
      · exact statusPhase_snd_ok cfg b.commit.hash (deriveState params.comparisonResult)
          (deriveDescription params.comparisonResult) params.reportUrl env hse
    have hce := commentPhase_branch_found_err cfg head b.commit.hash
      params.comparisonResult.failedItems.length params.comparisonResult.newItems.length
      params.comparisonResult.deletedItems.length params.comparisonResult.passedItems.length
      params.reportUrl env b pr rest reason hp ht hb he hc
    rcases notifyCore_cases cfg head params env b.commit.hash with ⟨t2, ht2, _⟩ | ⟨_, heq⟩
    · rw [hso] at ht2
      cases ht2
    · rw [heq, hce]
  · intro t ht
    rcases hsha : headSha1 head with _ | sha1
    · have hn : notify cfg head params env =
          ([Effect.log LogLevel.error "Can't detect HEAD branch or commit."], Except.ok ()) := by
        unfold notify
        rw [hsha]
      rw [hn] at ht
      cases ht
    · rw [notify_eq_core cfg head params env sha1 hsha] at ht
      rcases notifyCore_cases cfg head params env sha1 with ⟨t2, ht2, heq⟩ | ⟨hok, heq⟩
      · rw [heq] at ht
        have htt : t2 = t := by simpa using ht
        subst htt
        rcases statusPhase_snd_cases cfg sha1 (deriveState params.comparisonResult)
            (deriveDescription params.comparisonResult) params.reportUrl env with
          hok2 | ⟨reason, hre, herr⟩
        · rw [hok2] at ht2
          cases ht2
        · rw [herr] at ht2
          have h4 : t2 = (errorHandler reason).2 := by simpa using ht2.symm
          exact ⟨reason, h4, Or.inl hre⟩
      · rw [heq] at ht
        rcases commentPhase_snd_cases cfg head sha1 params.comparisonResult.failedItems.length
            params.comparisonResult.newItems.length params.comparisonResult.deletedItems.length
            params.comparisonResult.passedItems.length params.reportUrl env with
          hok2 | ⟨reason, hsource, herr⟩
        · rw [hok2] at ht
          cases ht
        · rw [herr] at ht
          have h5 : (errorHandler reason).2 = t := by simpa using ht
          rcases hsource with hl | hc
          · exact ⟨reason, h5.symm, Or.inr (Or.inl hl)⟩
          · exact ⟨reason, h5.symm, Or.inr (Or.inr hc)⟩

/-- Witness for C2 (amended): with every remote call succeeding the concrete
run resolves; with only the comment-creation call failing (a structured 403
whose message is `forbidden`), the same configuration rejects with the inner
error. -/
theorem notify_reject_characterization_witness :
    (notify cfgAllOn headBranchEx paramsEx envAllOk).2 = Except.ok () ∧
    (notify cfgAllOn headBranchEx paramsEx envCommentFails).2 =
      Except.error (Thrown.innerError "forbidden") := by
  constructor
  · have h := notify_reject_characterization cfgAllOn headBranchEx paramsEx envAllOk
    refine h.1 rfl ?_ rfl
    intro r hr
    simp [envAllOk] at hr
  · have h := notify_reject_characterization cfgAllOn headBranchEx paramsEx envCommentFails
    exact h.2.2.2.1 { name := "feat", commit := { hash := "abc" } } { number := 7 } []
      (RemoteReason.ghApp { statusCode := 403, errMessage := "forbidden" })
      rfl rfl rfl (Or.inr rfl) rfl rfl

end GithubNotifier
